/-
Verification of the Venu event registration and check-in platform.

This file gives a shallow embedding, in Lean 4, of the core of the
`core` Django app (src/core/models.py, src/core/views.py): the
registration state machine (`event_register`, `approve_registration`,
`reject_registration`), the check-in protocol (`process_check_in`),
and the resource gate (`participant_portal`'s locked computation and
`secure_download`).  The database is modelled as explicit lists of
records; timestamps are integers; each Django view becomes a pure
function from its inputs and the store to a tagged result and the new
store.  Theorems about these functions settle the specification's
claims.
-/
import Mathlib

namespace Venu

/-- The three registration statuses of `Registration.STATUS_CHOICES`
(src/core/models.py). -/
inductive Status
  | pending
  | approved
  | rejected
deriving DecidableEq, Repr

/-- An `Event` (src/core/models.py): only the fields the core reads.
`requires_approval` drives the initial registration status;
`is_published` gates public registration. -/
structure Event where
  id : Nat
  requires_approval : Bool
  is_published : Bool
deriving DecidableEq, Repr

/-- A `Session` (src/core/models.py): a time-boxed sub-event of one event,
with an inclusive `[start_time, end_time]` window. -/
structure Session where
  id : Nat
  event_id : Nat
  start_time : Int
  end_time : Int
deriving DecidableEq, Repr

/-- A `Participant` (src/core/models.py), identified by email in the
registration flow (`get_or_create(email=...)`). -/
structure Participant where
  name : String
  email : String
  phone : String
deriving DecidableEq, Repr

/-- A `Registration` (src/core/models.py).  The single `id` field models
both the primary key and the opaque `uuid` token, which each uniquely
identify the row.  `participant_email` stands for the participant
foreign key, participants being keyed by email in the creation flow. -/
structure Registration where
  id : Nat
  event_id : Nat
  participant_email : String
  status : Status
deriving DecidableEq, Repr

/-- A `RegistrationAnswer` (src/core/models.py): one stored text value per
(registration, question). -/
structure RegistrationAnswer where
  registration_id : Nat
  question_id : Nat
  value : String
deriving DecidableEq, Repr

/-- An `Attendance` (src/core/models.py): the fact that a registration was
checked into a session, recording who scanned it. -/
structure Attendance where
  registration_id : Nat
  session_id : Nat
  scanned_by : Option Nat
deriving DecidableEq, Repr

/-- A `Resource` (src/core/models.py): a gated asset of an event,
optionally linked to one session.  `hasFile` models `resource.file`
being truthy; `unlock_time = none` means immediately unlockable. -/
structure Resource where
  id : Nat
  event_id : Nat
  session_id : Option Nat
  hasFile : Bool
  unlock_time : Option Int
  requires_check_in : Bool
deriving DecidableEq, Repr

/-- The relational store: one list per table the core touches.
`next_id` supplies fresh registration identifiers. -/
structure Store where
  participants : List Participant
  registrations : List Registration
  answers : List RegistrationAnswer
  sessions : List Session
  attendances : List Attendance
  next_id : Nat
deriving DecidableEq, Repr

/-- The empty store. -/
def emptyStore : Store := ⟨[], [], [], [], [], 0⟩

/-- Lookup `get_object_or_404(Registration, uuid=...)` / `(Registration, pk=...)`:
resolve a registration by its identifier. -/
def findRegistration (st : Store) (uuid : Nat) : Option Registration :=
  st.registrations.find? (fun r => r.id == uuid)

/-- Whether `session`'s window contains `now` and the session belongs to
the event: the filter `start_time__lte=now, end_time__gte=now` on
`event.sessions` (src/core/views.py:232). -/
def sessionContains (s : Session) (event_id : Nat) (now : Int) : Bool :=
  s.event_id == event_id && decide (s.start_time ≤ now) && decide (now ≤ s.end_time)

/-- Embeds `registration.event.sessions.filter(start_time__lte=now,
end_time__gte=now).first()` (src/core/views.py:232): the first session of
the event whose inclusive window contains `now`. -/
def activeSession (st : Store) (event_id : Nat) (now : Int) : Option Session :=
  (st.sessions.filter (fun s => sessionContains s event_id now)).head?

/-- Embeds `Attendance.objects.filter(registration=..., session=...).exists()`
(src/core/views.py:242). -/
def hasAttendance (st : Store) (registration_id session_id : Nat) : Bool :=
  st.attendances.any (fun a => a.registration_id == registration_id && a.session_id == session_id)

/-- Embeds `Attendance.objects.filter(registration=...).exists()`
(src/core/views.py:450 and 489): any attendance for the registration, for
any session whatsoever. -/
def anyAttendance (st : Store) (registration_id : Nat) : Bool :=
  st.attendances.any (fun a => a.registration_id == registration_id)

/-- The outcomes of `process_check_in` (src/core/views.py:216):
the 403 response, the 404 of `get_object_or_404`, and the four rendered
results in order of appearance. -/
inductive CheckInResult
  | unauthorized
  | notFound
  | notApproved (current : Status)
  | noActiveSession
  | alreadyCheckedIn (session_id : Nat)
  | success (session_id : Nat)
deriving DecidableEq, Repr

/-- Embeds `process_check_in(request, uuid)` (src/core/views.py:216-260).
`is_staff` is `request.user.is_staff`; `actor_id` identifies
`request.user` for the `scanned_by` field.  The checks appear in source
order: staff capability, registration lookup, approval, active session,
duplicate attendance, then creation of the attendance row. -/
def process_check_in (is_staff : Bool) (uuid : Nat) (now : Int) (actor_id : Nat)
    (st : Store) : CheckInResult × Store :=
  if !is_staff then (.unauthorized, st)
  else
    match findRegistration st uuid with
    | none => (.notFound, st)
    | some reg =>
      if reg.status ≠ .approved then (.notApproved reg.status, st)
      else
        match activeSession st reg.event_id now with
        | none => (.noActiveSession, st)
        | some s =>
          if hasAttendance st reg.id s.id then (.alreadyCheckedIn s.id, st)
          else (.success s.id,
            { st with attendances := ⟨reg.id, s.id, some actor_id⟩ :: st.attendances })

/-- Outcomes of `event_register` for a POSTed valid form
(src/core/views.py:52-103): the `get_object_or_404` on an unpublished or
missing event, the duplicate-registration error page, and success. -/
inductive RegisterResult
  | notFound
  | duplicate
  | success (r : Registration)
deriving DecidableEq, Repr

/-- A form value for a dynamic question: a plain string, or a list of
selected choices for a checkbox field. -/
inductive AnswerValue
  | single (s : String)
  | multi (xs : List String)
deriving DecidableEq, Repr

/-- The value stored in a `RegistrationAnswer`: lists are joined with
`", "` (src/core/views.py:94-95). -/
def joinAnswer : AnswerValue → String
  | .single s => s
  | .multi xs => String.intercalate ", " xs

/-- Embeds `Participant.objects.get_or_create` by email
(src/core/views.py:59-65): returns the existing participant with that
exact email, or creates one from the submitted fields.  Result: the
participant and the (possibly extended) store. -/
def getOrCreateParticipant (name email phone : String) (st : Store) :
    Participant × Store :=
  match st.participants.find? (fun p => p.email == email) with
  | some p => (p, st)
  | none =>
    let p : Participant := ⟨name, email, phone⟩
    (p, { st with participants := st.participants ++ [p] })

/-- Embeds `event_register(request, slug)` for a POSTed valid form
(src/core/views.py:52-103): 404 unless the event is published; get or
create the participant by exact email; fail on an existing registration
for (event, participant); otherwise create the registration with status
`pending` when `event.requires_approval` else `approved`, and one
`RegistrationAnswer` per dynamic question with list values joined. -/
def event_register (event : Event) (name email phone : String)
    (answers : List (Nat × AnswerValue)) (st : Store) : RegisterResult × Store :=
  if !event.is_published then (.notFound, st)
  else
    let pst := getOrCreateParticipant name email phone st
    let participant := pst.1
    let st1 := pst.2
    if st1.registrations.any
        (fun r => r.event_id == event.id && r.participant_email == participant.email) then
      (.duplicate, st1)
    else
      let initial_status := if event.requires_approval then Status.pending else Status.approved
      let reg : Registration := ⟨st1.next_id, event.id, participant.email, initial_status⟩
      let newAnswers := answers.map
        (fun qa => RegistrationAnswer.mk reg.id qa.1 (joinAnswer qa.2))
      (.success reg,
        { st1 with
          registrations := reg :: st1.registrations,
          answers := newAnswers ++ st1.answers,
          next_id := st1.next_id + 1 })

/-- Outcomes of `approve_registration` / `reject_registration`
(src/core/views.py:149-171): the 403, the 404 of `get_object_or_404`,
and the rendered updated row. -/
inductive TransitionResult
  | unauthorized
  | notFound
  | ok
deriving DecidableEq, Repr

/-- Embeds `registration.status = ...; registration.save()`: rewrite the status
of the registration with the given primary key. -/
def setStatus (st : Store) (pk : Nat) (target : Status) : Store :=
  { st with registrations :=
      st.registrations.map (fun r => if r.id == pk then { r with status := target } else r) }

/-- Embeds `approve_registration(request, pk)` (src/core/views.py:149-159):
403 unless staff, 404 unless the registration exists, then
unconditionally set its status to `approved`. -/
def approve_registration (is_staff : Bool) (pk : Nat) (st : Store) :
    TransitionResult × Store :=
  if !is_staff then (.unauthorized, st)
  else
    match findRegistration st pk with
    | none => (.notFound, st)
    | some _ => (.ok, setStatus st pk .approved)

/-- Embeds `reject_registration(request, pk)` (src/core/views.py:161-171):
403 unless staff, 404 unless the registration exists, then
unconditionally set its status to `rejected`. -/
def reject_registration (is_staff : Bool) (pk : Nat) (st : Store) :
    TransitionResult × Store :=
  if !is_staff then (.unauthorized, st)
  else
    match findRegistration st pk with
    | none => (.notFound, st)
    | some _ => (.ok, setStatus st pk .rejected)

/-- The time condition `resource.unlock_time and now < resource.unlock_time`
(src/core/views.py:442 and 484). -/
def timeLocked (res : Resource) (now : Int) : Bool :=
  match res.unlock_time with
  | none => false
  | some u => decide (now < u)

/-- The per-resource locked computation of `participant_portal`
(src/core/views.py:438-455): `is_locked` starts false and is set when the
unlock time has not passed, or when the resource requires check-in and the
registration has no attendance for any session.  No ownership or approval
check appears here. -/
def portal_is_locked (st : Store) (reg : Registration) (res : Resource)
    (now : Int) : Bool :=
  timeLocked res now || (res.requires_check_in && !anyAttendance st reg.id)

/-- Outcomes of `secure_download` (src/core/views.py:467-509): the four
403 responses in source order, the 404 for a missing file, and the served
file response. -/
inductive DownloadResult
  | forbiddenWrongEvent
  | notApprovedDeny
  | notYetUnlocked
  | checkInRequired
  | fileNotFound
  | served
deriving DecidableEq, Repr

/-- Embeds `secure_download(request, uuid, resource_id)` (src/core/views.py:467-509)
after both lookups succeed: deny unless the resource belongs to the
registration's event, unless the registration is approved, unless the
unlock time has passed, and (when the resource requires check-in) unless
some attendance exists for the registration; then 404 without a file,
else serve it. -/
def secure_download (st : Store) (reg : Registration) (res : Resource)
    (now : Int) : DownloadResult :=
  if res.event_id ≠ reg.event_id then .forbiddenWrongEvent
  else if reg.status ≠ .approved then .notApprovedDeny
  else if timeLocked res now then .notYetUnlocked
  else if res.requires_check_in && !anyAttendance st reg.id then .checkInRequired
  else if !res.hasFile then .fileNotFound
  else .served

/-- Whether a download outcome is a denial by the four-condition gate,
as opposed to the missing-payload 404 or success. -/
def nonPayloadDeny : DownloadResult → Bool
  | .forbiddenWrongEvent => true
  | .notApprovedDeny => true
  | .notYetUnlocked => true
  | .checkInRequired => true
  | .fileNotFound => false
  | .served => false

/-- Modelled from the spec: `self_check_in` is imported and routed at
`portal/<uuid:uuid>/checkin/<int:session_id>/` in src/core/urls.py, but
its body is absent from src/core/views.py.  Per the spec (§4.3), the
self-service variant applies the identical validation chain as the scan
flow, with the token itself as the credential in place of the staff
capability: resolve the registration, require approval, resolve the
active session by time window, reject a duplicate attendance, else
record the attendance (no staff scanner, so `scanned_by` is absent). -/
def self_check_in (uuid : Nat) (now : Int) (st : Store) : CheckInResult × Store :=
  match findRegistration st uuid with
  | none => (.notFound, st)
  | some reg =>
    if reg.status ≠ .approved then (.notApproved reg.status, st)
    else
      match activeSession st reg.event_id now with
      | none => (.noActiveSession, st)
      | some s =>
        if hasAttendance st reg.id s.id then (.alreadyCheckedIn s.id, st)
        else (.success s.id,
          { st with attendances := ⟨reg.id, s.id, none⟩ :: st.attendances })

/-- One submitted registration form: the event and the form's cleaned
data. -/
structure RegisterCall where
  event : Event
  name : String
  email : String
  phone : String
  answers : List (Nat × AnswerValue)
deriving DecidableEq, Repr

/-- Run a sequence of `event_register` calls against a store, keeping each
resulting store. -/
def applyCalls : List RegisterCall → Store → Store
  | [], st => st
  | c :: cs, st => applyCalls cs (event_register c.event c.name c.email c.phone c.answers st).2

/-- The registrations of `st` for the pair (event, participant), the pair
being keyed by event id and participant email. -/
def pairRegistrations (st : Store) (event_id : Nat) (email : String) : List Registration :=
  st.registrations.filter (fun r => r.event_id == event_id && r.participant_email == email)

/-! ### Basic lemmas about the embedded operations -/

theorem sessionContains_iff (s : Session) (eid : Nat) (now : Int) :
    sessionContains s eid now = true ↔
      s.event_id = eid ∧ s.start_time ≤ now ∧ now ≤ s.end_time := by
  simp [sessionContains, and_assoc]

theorem activeSession_eq_none_iff (st : Store) (eid : Nat) (now : Int) :
    activeSession st eid now = none ↔
      ∀ s ∈ st.sessions, ¬(s.event_id = eid ∧ s.start_time ≤ now ∧ now ≤ s.end_time) := by
  simp only [activeSession, List.head?_eq_none_iff, List.filter_eq_nil_iff,
    sessionContains_iff]

theorem find?_map_of_comm (f : Registration → Registration) (p : Registration → Bool)
    (hp : ∀ r, p (f r) = p r) (l : List Registration) :
    (l.map f).find? p = (l.find? p).map f := by
  induction l with
  | nil => rfl
  | cons r l ih =>
    rw [List.map_cons]
    cases hb : p r with
    | true =>
      rw [List.find?_cons_of_pos _ (by rw [hp]; exact hb),
        List.find?_cons_of_pos _ hb, Option.map_some']
    | false =>
      rw [List.find?_cons_of_neg _ (by rw [hp, hb]; simp),
        List.find?_cons_of_neg _ (by rw [hb]; simp), ih]

theorem findRegistration_setStatus (st : Store) (pk : Nat) (target : Status)
    (reg : Registration) (h : findRegistration st pk = some reg) :
    findRegistration (setStatus st pk target) pk = some { reg with status := target } := by
  have hfind : (findRegistration st pk).map
      (fun r => if r.id == pk then { r with status := target } else r)
        = some (if reg.id == pk then { reg with status := target } else reg) := by
    rw [h, Option.map_some']
  have h' : st.registrations.find? (fun r => r.id == pk) = some reg := h
  have hp : (reg.id == pk) = true :=
    @List.find?_some _ (fun r => r.id == pk) reg st.registrations h'
  unfold findRegistration setStatus
  rw [find?_map_of_comm _ _ (fun r => by by_cases hr : r.id = pk <;> simp [hr])]
  unfold findRegistration at hfind
  rw [hfind, if_pos hp]

/-! ### The claims -/

/-- C3: the initial status of a created registration is a pure function of
the event's `requires_approval` flag: `approved` when it is false,
`pending` when it is true. -/
theorem register_initial_status (event : Event) (name email phone : String)
    (answers : List (Nat × AnswerValue)) (st : Store) (r : Registration) (st' : Store)
    (h : event_register event name email phone answers st = (.success r, st')) :
    r.status = (if event.requires_approval then Status.pending else Status.approved) := by
  simp only [event_register] at h
  split at h
  · simp at h
  · split at h
    · simp at h
    · simp only [Prod.mk.injEq, RegisterResult.success.injEq] at h
      rw [← h.1]

/-- Witness for C3: an auto-approve event yields an `approved` registration. -/
theorem register_initial_status_witness :
    event_register ⟨0, false, true⟩ "Ann" "a@x" "" [] emptyStore
        = (.success ⟨0, 0, "a@x", .approved⟩,
            ⟨[⟨"Ann", "a@x", ""⟩], [⟨0, 0, "a@x", .approved⟩], [], [], [], 1⟩)
      ∧ Status.approved
          = (if (⟨0, false, true⟩ : Event).requires_approval then Status.pending
              else Status.approved) :=
  ⟨rfl, register_initial_status ⟨0, false, true⟩ "Ann" "a@x" "" [] emptyStore
    ⟨0, 0, "a@x", .approved⟩ ⟨[⟨"Ann", "a@x", ""⟩], [⟨0, 0, "a@x", .approved⟩], [], [], [], 1⟩ rfl⟩

/-- C6: `approve_registration` and `reject_registration` fail with the 403
for a non-staff actor, and for a staff actor set the status to the target
unconditionally — the current status `reg.status` is arbitrary, so any
staff actor can move a registration between the states at any time. -/
theorem transition_unguarded (pk : Nat) (st : Store) :
    (approve_registration false pk st = (.unauthorized, st)
      ∧ reject_registration false pk st = (.unauthorized, st))
    ∧ ∀ reg, findRegistration st pk = some reg →
        ((approve_registration true pk st).1 = .ok
          ∧ findRegistration (approve_registration true pk st).2 pk
              = some { reg with status := .approved })
        ∧ ((reject_registration true pk st).1 = .ok
          ∧ findRegistration (reject_registration true pk st).2 pk
              = some { reg with status := .rejected }) := by
  refine ⟨⟨rfl, rfl⟩, fun reg h => ?_⟩
  have ha : approve_registration true pk st = (.ok, setStatus st pk .approved) := by
    simp [approve_registration, h]
  have hr : reject_registration true pk st = (.ok, setStatus st pk .rejected) := by
    simp [reject_registration, h]
  refine ⟨⟨by rw [ha], ?_⟩, by rw [hr], ?_⟩
  · rw [ha]
    exact findRegistration_setStatus st pk .approved reg h
  · rw [hr]
    exact findRegistration_setStatus st pk .rejected reg h

/-- Witness for C6: a staff actor re-approves an already rejected
registration; no guard on the current status blocks it. -/
theorem transition_unguarded_witness :
    findRegistration ⟨[], [⟨5, 0, "a@x", .rejected⟩], [], [], [], 6⟩ 5
        = some ⟨5, 0, "a@x", .rejected⟩
      ∧ (approve_registration true 5 ⟨[], [⟨5, 0, "a@x", .rejected⟩], [], [], [], 6⟩).1 = .ok
      ∧ findRegistration
          (approve_registration true 5 ⟨[], [⟨5, 0, "a@x", .rejected⟩], [], [], [], 6⟩).2 5
          = some ⟨5, 0, "a@x", .approved⟩ :=
  ⟨rfl,
    ((transition_unguarded 5 ⟨[], [⟨5, 0, "a@x", .rejected⟩], [], [], [], 6⟩).2
      ⟨5, 0, "a@x", .rejected⟩ rfl).1.1,
    ((transition_unguarded 5 ⟨[], [⟨5, 0, "a@x", .rejected⟩], [], [], [], 6⟩).2
      ⟨5, 0, "a@x", .rejected⟩ rfl).1.2⟩

/-- C1: `process_check_in` applies its validations in source order and
returns the first failure that applies — unauthorized for a non-staff
actor, not-found for an unresolved token, not-approved for a status other
than `approved`, no-active-session when no session of the registration's
event has a window containing the timestamp, already-checked-in when an
attendance exists for (registration, active session) — and otherwise
creates exactly one new attendance for (registration, active session). -/
theorem check_in_first_failure (is_staff : Bool) (uuid : Nat) (now : Int)
    (actor_id : Nat) (st : Store) :
    (is_staff = false → process_check_in is_staff uuid now actor_id st = (.unauthorized, st))
    ∧ (findRegistration st uuid = none →
        process_check_in true uuid now actor_id st = (.notFound, st))
    ∧ (∀ reg, findRegistration st uuid = some reg → reg.status ≠ .approved →
        process_check_in true uuid now actor_id st = (.notApproved reg.status, st))
    ∧ (∀ reg, findRegistration st uuid = some reg → reg.status = .approved →
        (∀ s ∈ st.sessions,
          ¬(s.event_id = reg.event_id ∧ s.start_time ≤ now ∧ now ≤ s.end_time)) →
        process_check_in true uuid now actor_id st = (.noActiveSession, st))
    ∧ (∀ reg s, findRegistration st uuid = some reg → reg.status = .approved →
        activeSession st reg.event_id now = some s →
        hasAttendance st reg.id s.id = true →
        process_check_in true uuid now actor_id st = (.alreadyCheckedIn s.id, st))
    ∧ (∀ reg s, findRegistration st uuid = some reg → reg.status = .approved →
        activeSession st reg.event_id now = some s →
        hasAttendance st reg.id s.id = false →
        process_check_in true uuid now actor_id st
          = (.success s.id,
              { st with attendances := ⟨reg.id, s.id, some actor_id⟩ :: st.attendances })) := by
  refine ⟨fun h => by simp [process_check_in, h],
    fun h => by simp [process_check_in, h],
    fun reg h hs => by simp [process_check_in, h, hs],
    fun reg h hs hn => ?_,
    fun reg s h hs ha hd => by simp [process_check_in, h, hs, ha, hd],
    fun reg s h hs ha hd => by simp [process_check_in, h, hs, ha, hd]⟩
  have hnone : activeSession st reg.event_id now = none :=
    (activeSession_eq_none_iff st reg.event_id now).2 hn
  simp [process_check_in, h, hs, hnone]

/-- Witness for C1: a successful scan in a store with one approved
registration and one session whose window contains the timestamp. -/
theorem check_in_first_failure_witness :
    findRegistration ⟨[], [⟨1, 0, "a@x", .approved⟩], [], [⟨2, 0, 0, 10⟩], [], 2⟩ 1
        = some ⟨1, 0, "a@x", .approved⟩
      ∧ activeSession ⟨[], [⟨1, 0, "a@x", .approved⟩], [], [⟨2, 0, 0, 10⟩], [], 2⟩ 0 5
          = some ⟨2, 0, 0, 10⟩
      ∧ hasAttendance ⟨[], [⟨1, 0, "a@x", .approved⟩], [], [⟨2, 0, 0, 10⟩], [], 2⟩ 1 2 = false
      ∧ process_check_in true 1 5 9 ⟨[], [⟨1, 0, "a@x", .approved⟩], [], [⟨2, 0, 0, 10⟩], [], 2⟩
          = (.success 2, ⟨[], [⟨1, 0, "a@x", .approved⟩], [], [⟨2, 0, 0, 10⟩], [⟨1, 2, some 9⟩], 2⟩) :=
  ⟨rfl, rfl, rfl,
    (check_in_first_failure true 1 5 9
        ⟨[], [⟨1, 0, "a@x", .approved⟩], [], [⟨2, 0, 0, 10⟩], [], 2⟩).2.2.2.2.2
      ⟨1, 0, "a@x", .approved⟩ ⟨2, 0, 0, 10⟩ rfl rfl rfl rfl⟩

/-- C5 counterexample: a pending registration scanned when no session at
all exists (so no window contains the timestamp) yields the status
failure, not `noActiveSession` — the approval check precedes session
resolution, so the session failure is not reported regardless of status. -/
theorem checkin_noactivesession_counterexample :
    (⟨[], [⟨1, 0, "a@x", .pending⟩], [], [], [], 2⟩ : Store).sessions = []
    ∧ process_check_in true 1 5 9 ⟨[], [⟨1, 0, "a@x", .pending⟩], [], [], [], 2⟩
        = (.notApproved .pending, ⟨[], [⟨1, 0, "a@x", .pending⟩], [], [], [], 2⟩)
    ∧ (process_check_in true 1 5 9 ⟨[], [⟨1, 0, "a@x", .pending⟩], [], [], [], 2⟩).1
        ≠ .noActiveSession :=
  ⟨rfl, rfl, by decide⟩

/-- C5 amended: for an authorized scan with a resolved token, the check-in
fails with the status failure whenever the status is `pending` or
`rejected` (this check precedes session resolution), and fails with
`noActiveSession` when the registration is approved and no session of its
event has a time window containing the timestamp. -/
theorem checkin_notapproved_noactivesession (uuid : Nat) (now : Int) (actor_id : Nat)
    (st : Store) (reg : Registration) (h : findRegistration st uuid = some reg) :
    (reg.status = .pending ∨ reg.status = .rejected →
      (process_check_in true uuid now actor_id st).1 = .notApproved reg.status)
    ∧ (reg.status = .approved →
        (∀ s ∈ st.sessions,
          ¬(s.event_id = reg.event_id ∧ s.start_time ≤ now ∧ now ≤ s.end_time)) →
        (process_check_in true uuid now actor_id st).1 = .noActiveSession) := by
  constructor
  · intro hs
    have hne : reg.status ≠ .approved := by rcases hs with h1 | h1 <;> simp [h1]
    simp [process_check_in, h, hne]
  · intro hs hn
    have hnone : activeSession st reg.event_id now = none :=
      (activeSession_eq_none_iff st reg.event_id now).2 hn
    simp [process_check_in, h, hs, hnone]

/-- Witness for the amended C5: a pending registration is turned away with
the status failure, and an approved one scanned with no sessions at all
gets `noActiveSession`. -/
theorem checkin_notapproved_noactivesession_witness :
    (process_check_in true 1 5 9 ⟨[], [⟨1, 0, "a@x", .pending⟩], [], [], [], 2⟩).1
        = .notApproved .pending
    ∧ (process_check_in true 1 5 9 ⟨[], [⟨1, 0, "a@x", .approved⟩], [], [], [], 2⟩).1
        = .noActiveSession :=
  ⟨(checkin_notapproved_noactivesession 1 5 9 ⟨[], [⟨1, 0, "a@x", .pending⟩], [], [], [], 2⟩
      ⟨1, 0, "a@x", .pending⟩ rfl).1 (Or.inl rfl),
    (checkin_notapproved_noactivesession 1 5 9 ⟨[], [⟨1, 0, "a@x", .approved⟩], [], [], [], 2⟩
      ⟨1, 0, "a@x", .approved⟩ rfl).2 rfl (by simp)⟩

/-- C9: the self-service check-in applies the identical validation chain
as an authorized staff scan — the same outcome on every input, the same
registrations, and the same attendance facts (registration, session)
recorded; only the scanner identity, absent for self-service, differs. -/
theorem self_check_in_equiv (uuid : Nat) (now : Int) (actor_id : Nat) (st : Store) :
    (self_check_in uuid now st).1 = (process_check_in true uuid now actor_id st).1
    ∧ (self_check_in uuid now st).2.attendances.map
          (fun a => (a.registration_id, a.session_id))
        = (process_check_in true uuid now actor_id st).2.attendances.map
            (fun a => (a.registration_id, a.session_id))
    ∧ (self_check_in uuid now st).2.registrations
        = (process_check_in true uuid now actor_id st).2.registrations := by
  unfold self_check_in process_check_in
  cases hf : findRegistration st uuid with
  | none => simp
  | some reg =>
    by_cases hs : reg.status = .approved
    · cases ha : activeSession st reg.event_id now with
      | none => simp [hs, ha]
      | some s =>
        by_cases hd : hasAttendance st reg.id s.id
        · simp [hs, ha, hd]
        · simp [hs, ha, hd]
    · simp [hs]

/-- C4 counterexample: for a pending registration and a resource of its
own event with no time or check-in condition, the portal listing computes
unlocked (`false`), yet `secure_download` denies for a non-payload reason
(the approval check) at the same timestamp: the two sites do not evaluate
the same four-condition policy, the listing never checks approval. -/
theorem portal_gate_counterexample :
    portal_is_locked ⟨[], [⟨1, 0, "a@x", .pending⟩], [], [], [], 2⟩ ⟨1, 0, "a@x", .pending⟩
        ⟨7, 0, none, true, none, false⟩ 5 = false
    ∧ (⟨7, 0, none, true, none, false⟩ : Resource).event_id
        = (⟨1, 0, "a@x", .pending⟩ : Registration).event_id
    ∧ secure_download ⟨[], [⟨1, 0, "a@x", .pending⟩], [], [], [], 2⟩ ⟨1, 0, "a@x", .pending⟩
        ⟨7, 0, none, true, none, false⟩ 5 = .notApprovedDeny
    ∧ nonPayloadDeny .notApprovedDeny = true := by
  refine ⟨rfl, rfl, rfl, rfl⟩

/-- C4 amended: the agreement between the portal listing's locked flag and
`secure_download`'s non-payload denial holds only for a resource of the
registration's own event with the registration approved — under those two
hypotheses the remaining conditions (unlock time, attendance) coincide;
the listing itself checks neither ownership nor approval. -/
theorem portal_gate_agreement (st : Store) (reg : Registration) (res : Resource) (now : Int)
    (hev : res.event_id = reg.event_id) (hst : reg.status = .approved) :
    portal_is_locked st reg res now = nonPayloadDeny (secure_download st reg res now) := by
  by_cases ht : timeLocked res now = true
  · simp [portal_is_locked, secure_download, nonPayloadDeny, hev, hst, ht]
  · by_cases hc : (res.requires_check_in && !anyAttendance st reg.id) = true
    · simp [portal_is_locked, secure_download, nonPayloadDeny, hev, hst, ht, hc]
    · by_cases hf : res.hasFile = true <;>
        simp [portal_is_locked, secure_download, nonPayloadDeny, hev, hst, ht, hc, hf]

/-- Witness for the amended C4: an approved registration and a resource
still time-locked at the timestamp — the listing marks it locked and the
download path denies it for a non-payload reason. -/
theorem portal_gate_agreement_witness :
    portal_is_locked ⟨[], [⟨1, 0, "a@x", .approved⟩], [], [], [], 2⟩ ⟨1, 0, "a@x", .approved⟩
        ⟨7, 0, none, true, some 10, false⟩ 5 = true
    ∧ portal_is_locked ⟨[], [⟨1, 0, "a@x", .approved⟩], [], [], [], 2⟩ ⟨1, 0, "a@x", .approved⟩
          ⟨7, 0, none, true, some 10, false⟩ 5
        = nonPayloadDeny (secure_download ⟨[], [⟨1, 0, "a@x", .approved⟩], [], [], [], 2⟩
            ⟨1, 0, "a@x", .approved⟩ ⟨7, 0, none, true, some 10, false⟩ 5) :=
  ⟨rfl, portal_gate_agreement ⟨[], [⟨1, 0, "a@x", .approved⟩], [], [], [], 2⟩
    ⟨1, 0, "a@x", .approved⟩ ⟨7, 0, none, true, some 10, false⟩ 5 rfl rfl⟩

/-- C7: when a resource requires check-in (and the other gate conditions
hold), the attendance condition is satisfied exactly when some attendance
exists for the registration for any session whatsoever — the resource's
own linked session is never consulted — and with no attendance record the
listing marks the resource locked and the download path denies it. -/
theorem attendance_gate_any_session (st : Store) (reg : Registration) (res : Resource)
    (now : Int) (hreq : res.requires_check_in = true) (hev : res.event_id = reg.event_id)
    (hst : reg.status = .approved) (ht : timeLocked res now = false) :
    (secure_download st reg res now ≠ .checkInRequired ↔
      ∃ a ∈ st.attendances, a.registration_id = reg.id)
    ∧ (anyAttendance st reg.id = false →
        secure_download st reg res now = .checkInRequired
        ∧ portal_is_locked st reg res now = true) := by
  have hany : anyAttendance st reg.id = true ↔
      ∃ a ∈ st.attendances, a.registration_id = reg.id := by
    simp [anyAttendance]
  cases hA : anyAttendance st reg.id with
  | true =>
    refine ⟨⟨fun _ => hany.1 hA, fun _ => ?_⟩, by simp [hA]⟩
    by_cases hf : res.hasFile = true <;>
      simp [secure_download, hev, hst, ht, hreq, hA, hf]
  | false =>
    have hres : secure_download st reg res now = .checkInRequired := by
      simp [secure_download, hev, hst, ht, hreq, hA]
    refine ⟨⟨fun hne => absurd hres hne, fun hex => ?_⟩,
      fun _ => ⟨hres, by simp [portal_is_locked, hreq, hA]⟩⟩
    exact absurd (hany.2 hex) (by simp [hA])

/-- Witness for C7: the only attendance on file is for session 2 while the
resource is linked to session 3; the gate still grants the download. -/
theorem attendance_gate_any_session_witness :
    (⟨7, 0, some 3, true, none, true⟩ : Resource).session_id = some 3
    ∧ (⟨[], [⟨1, 0, "a@x", .approved⟩], [], [⟨2, 0, 0, 10⟩], [⟨1, 2, some 9⟩], 2⟩ :
        Store).attendances = [⟨1, 2, some 9⟩]
    ∧ secure_download ⟨[], [⟨1, 0, "a@x", .approved⟩], [], [⟨2, 0, 0, 10⟩], [⟨1, 2, some 9⟩], 2⟩
        ⟨1, 0, "a@x", .approved⟩ ⟨7, 0, some 3, true, none, true⟩ 5 ≠ .checkInRequired :=
  ⟨rfl, rfl,
    (attendance_gate_any_session
        ⟨[], [⟨1, 0, "a@x", .approved⟩], [], [⟨2, 0, 0, 10⟩], [⟨1, 2, some 9⟩], 2⟩
        ⟨1, 0, "a@x", .approved⟩ ⟨7, 0, some 3, true, none, true⟩ 5 rfl rfl rfl rfl).1.2
      ⟨⟨1, 2, some 9⟩, by simp, rfl⟩⟩

/-- C8: with ownership and approval holding, the attendance condition held
fixed (any check-in requirement is met), and `unlock_time` set to `u`, the
unlock decision is monotone in the timestamp: the gate denies at every
timestamp strictly before `u` and passes at every timestamp at or after
`u`; the portal listing's flag agrees at both sides. -/
theorem unlock_time_monotonic (st : Store) (reg : Registration) (res : Resource) (u : Int)
    (hev : res.event_id = reg.event_id) (hst : reg.status = .approved)
    (hu : res.unlock_time = some u)
    (hatt : res.requires_check_in = true → anyAttendance st reg.id = true) :
    ∀ t : Int,
      (t < u → nonPayloadDeny (secure_download st reg res t) = true
        ∧ portal_is_locked st reg res t = true)
      ∧ (u ≤ t → nonPayloadDeny (secure_download st reg res t) = false
        ∧ portal_is_locked st reg res t = false) := by
  intro t
  constructor
  · intro hlt
    have ht : timeLocked res t = true := by simp [timeLocked, hu, hlt]
    exact ⟨by simp [secure_download, nonPayloadDeny, hev, hst, ht],
      by simp [portal_is_locked, ht]⟩
  · intro hge
    have ht : timeLocked res t = false := by
      simp only [timeLocked, hu, decide_eq_false_iff_not]
      exact not_lt.2 hge
    have hc : (res.requires_check_in && !anyAttendance st reg.id) = false := by
      cases hreq : res.requires_check_in with
      | false => simp
      | true => simp [hatt hreq]
    refine ⟨?_, by simp [portal_is_locked, ht, hc]⟩
    by_cases hf : res.hasFile = true <;>
      simp [secure_download, nonPayloadDeny, hev, hst, ht, hc, hf]

/-- Witness for C8: a resource unlocking at time 10 for an approved
registration is gated at time 5 and open at time 12. -/
theorem unlock_time_monotonic_witness :
    nonPayloadDeny (secure_download ⟨[], [⟨1, 0, "a@x", .approved⟩], [], [], [], 2⟩
        ⟨1, 0, "a@x", .approved⟩ ⟨7, 0, none, true, some 10, false⟩ 5) = true
    ∧ nonPayloadDeny (secure_download ⟨[], [⟨1, 0, "a@x", .approved⟩], [], [], [], 2⟩
        ⟨1, 0, "a@x", .approved⟩ ⟨7, 0, none, true, some 10, false⟩ 12) = false :=
  ⟨((unlock_time_monotonic ⟨[], [⟨1, 0, "a@x", .approved⟩], [], [], [], 2⟩
      ⟨1, 0, "a@x", .approved⟩ ⟨7, 0, none, true, some 10, false⟩ 10 rfl rfl rfl
      (fun h => nomatch h) 5).1 (by decide)).1,
    ((unlock_time_monotonic ⟨[], [⟨1, 0, "a@x", .approved⟩], [], [], [], 2⟩
      ⟨1, 0, "a@x", .approved⟩ ⟨7, 0, none, true, some 10, false⟩ 10 rfl rfl rfl
      (fun h => nomatch h) 12).2 (by decide)).1⟩

theorem getOrCreateParticipant_email (name email phone : String) (st : Store) :
    (getOrCreateParticipant name email phone st).1.email = email := by
  unfold getOrCreateParticipant
  cases hf : st.participants.find? (fun p => p.email == email) with
  | none => rfl
  | some p =>
    have hb : (p.email == email) = true :=
      @List.find?_some _ (fun p => p.email == email) p st.participants hf
    simpa using hb

theorem getOrCreateParticipant_registrations (name email phone : String) (st : Store) :
    (getOrCreateParticipant name email phone st).2.registrations = st.registrations := by
  unfold getOrCreateParticipant
  cases hf : st.participants.find? (fun p => p.email == email) <;> rfl

theorem event_register_success (event : Event) (name email phone : String)
    (answers : List (Nat × AnswerValue)) (st : Store) (r : Registration) (st' : Store)
    (h : event_register event name email phone answers st = (.success r, st')) :
    event.is_published = true
    ∧ r.event_id = event.id ∧ r.participant_email = email
    ∧ st'.registrations = r :: st.registrations
    ∧ st.registrations.filter
        (fun r2 => r2.event_id == event.id && r2.participant_email == email) = [] := by
  simp only [event_register] at h
  split at h
  next hpub => simp at h
  next hpub =>
    have hpub' : event.is_published = true := by
      cases hpb : event.is_published with
      | true => rfl
      | false => exact absurd (by simp [hpb]) hpub
    split at h
    next hdup => simp at h
    next hdup =>
      simp only [Prod.mk.injEq, RegisterResult.success.injEq] at h
      obtain ⟨hr, hst⟩ := h
      subst hr
      subst hst
      refine ⟨hpub', rfl, getOrCreateParticipant_email name email phone st, ?_, ?_⟩
      · simp [getOrCreateParticipant_registrations]
      · rw [Bool.not_eq_true] at hdup
        simp only [getOrCreateParticipant_registrations,
          getOrCreateParticipant_email] at hdup
        rw [List.filter_eq_nil_iff]
        exact (List.any_eq_false).1 hdup

theorem event_register_registrations_cases (event : Event) (name email phone : String)
    (answers : List (Nat × AnswerValue)) (st : Store) :
    (event_register event name email phone answers st).2.registrations = st.registrations
    ∨ ∃ r : Registration,
        (event_register event name email phone answers st).1 = .success r
        ∧ (event_register event name email phone answers st).2.registrations
            = r :: st.registrations
        ∧ r.event_id = event.id ∧ r.participant_email = email
        ∧ st.registrations.filter
            (fun r2 => r2.event_id == event.id && r2.participant_email == email) = [] := by
  cases h : event_register event name email phone answers st with
  | mk res st' =>
    cases res with
    | notFound =>
      left
      simp only [event_register] at h
      split at h
      next hpub =>
        simp only [Prod.mk.injEq] at h
        rw [← h.2]
      next hpub =>
        split at h
        next hdup => simp at h
        next hdup => simp at h
    | duplicate =>
      left
      simp only [event_register] at h
      split at h
      next hpub => simp at h
      next hpub =>
        split at h
        next hdup =>
          simp only [Prod.mk.injEq] at h
          rw [← h.2, getOrCreateParticipant_registrations]
        next hdup => simp at h
    | success r =>
      right
      obtain ⟨-, hev, hem, hcons, hfil⟩ :=
        event_register_success event name email phone answers st r st' h
      exact ⟨r, rfl, hcons, hev, hem, hfil⟩

theorem filter_cons_le_one (reg : Registration) (l : List Registration)
    (p : Registration → Bool) (hl : (l.filter p).length ≤ 1)
    (hnew : p reg = true → l.filter p = []) :
    ((reg :: l).filter p).length ≤ 1 := by
  cases hp : p reg with
  | false => simpa [List.filter_cons, hp] using hl
  | true => simp [List.filter_cons, hp, hnew hp]

theorem register_preserves_once (event : Event) (name email phone : String)
    (answers : List (Nat × AnswerValue)) (st : Store)
    (hst : ∀ eid em, (pairRegistrations st eid em).length ≤ 1) (eid : Nat) (em : String) :
    (pairRegistrations (event_register event name email phone answers st).2 eid em).length
      ≤ 1 := by
  rcases event_register_registrations_cases event name email phone answers st with
    hsame | ⟨r, -, hcons, hev, hem, hfil⟩
  · unfold pairRegistrations
    rw [hsame]
    exact hst eid em
  · unfold pairRegistrations
    rw [hcons]
    refine filter_cons_le_one r st.registrations _ (hst eid em) (fun hp => ?_)
    simp only [Bool.and_eq_true, beq_iff_eq] at hp
    obtain ⟨h1, h2⟩ := hp
    rw [hev] at h1
    rw [hem] at h2
    subst h1
    subst h2
    exact hfil

theorem applyCalls_once (calls : List RegisterCall) :
    ∀ st : Store, (∀ eid em, (pairRegistrations st eid em).length ≤ 1) →
      ∀ eid em, (pairRegistrations (applyCalls calls st) eid em).length ≤ 1 := by
  induction calls with
  | nil => exact fun st hst => hst
  | cons c cs ih =>
    intro st hst
    exact ih _ (fun eid em =>
      register_preserves_once c.event c.name c.email c.phone c.answers st hst eid em)

/-- C2: a second `event_register` call for the same (event, participant
email) pair fails with the duplicate error, and after any sequence of
calls starting from the empty store the store holds at most one
registration per (event, participant email) pair. -/
theorem register_duplicate_once_per_pair :
    (∀ (event : Event) (name email phone : String) (answers : List (Nat × AnswerValue))
        (st : Store) (r : Registration) (st' : Store),
        event_register event name email phone answers st = (.success r, st') →
        ∀ (name' phone' : String) (answers' : List (Nat × AnswerValue)),
          (event_register event name' email phone' answers' st').1 = .duplicate)
    ∧ (∀ (calls : List RegisterCall) (eid : Nat) (em : String),
        (pairRegistrations (applyCalls calls emptyStore) eid em).length ≤ 1) := by
  constructor
  · intro event name email phone answers st r st' h name' phone' answers'
    obtain ⟨hpub, hev, hem, hregs, -⟩ :=
      event_register_success event name email phone answers st r st' h
    have hany : ((getOrCreateParticipant name' email phone' st').2.registrations.any
        (fun r2 => r2.event_id == event.id && r2.participant_email ==
          (getOrCreateParticipant name' email phone' st').1.email)) = true := by
      simp only [getOrCreateParticipant_registrations, getOrCreateParticipant_email, hregs]
      simp [List.any_cons, hev, hem]
    simp [event_register, hpub, hany]
  · intro calls eid em
    exact applyCalls_once calls emptyStore
      (fun eid em => by simp [pairRegistrations, emptyStore]) eid em

/-- Witness for C2: registering the same email for the same event twice —
the second call is rejected as a duplicate, and the one-per-pair bound
holds on the resulting store. -/
theorem register_duplicate_once_per_pair_witness :
    event_register ⟨0, false, true⟩ "Ann" "a@x" "" [] emptyStore
        = (.success ⟨0, 0, "a@x", .approved⟩,
            ⟨[⟨"Ann", "a@x", ""⟩], [⟨0, 0, "a@x", .approved⟩], [], [], [], 1⟩)
    ∧ (event_register ⟨0, false, true⟩ "Bob" "a@x" "" []
          ⟨[⟨"Ann", "a@x", ""⟩], [⟨0, 0, "a@x", .approved⟩], [], [], [], 1⟩).1 = .duplicate
    ∧ (pairRegistrations
          (applyCalls [⟨⟨0, false, true⟩, "Ann", "a@x", "", []⟩,
            ⟨⟨0, false, true⟩, "Bob", "a@x", "", []⟩] emptyStore) 0 "a@x").length ≤ 1 :=
  ⟨rfl,
    register_duplicate_once_per_pair.1 ⟨0, false, true⟩ "Ann" "a@x" "" [] emptyStore
      ⟨0, 0, "a@x", .approved⟩
      ⟨[⟨"Ann", "a@x", ""⟩], [⟨0, 0, "a@x", .approved⟩], [], [], [], 1⟩ rfl "Bob" "" [],
    register_duplicate_once_per_pair.2
      [⟨⟨0, false, true⟩, "Ann", "a@x", "", []⟩, ⟨⟨0, false, true⟩, "Bob", "a@x", "", []⟩]
      0 "a@x"⟩

/-- C10: a call that fails with the duplicate error leaves the store
exactly as it was — no participant, registration, or answer row is
created — provided every stored registration's participant email belongs
to a stored participant (which holds for stores built by registration,
since registrations always reference the got-or-created participant). -/
theorem duplicate_leaves_store_unchanged (event : Event) (name email phone : String)
    (answers : List (Nat × AnswerValue)) (st : Store)
    (hwf : ∀ r ∈ st.registrations, ∃ p ∈ st.participants, p.email = r.participant_email)
    (hdup : (event_register event name email phone answers st).1 = .duplicate) :
    (event_register event name email phone answers st).2 = st := by
  by_cases hpub : event.is_published = true
  · cases hf : st.participants.find? (fun p => p.email == email) with
    | some p =>
      cases hany : (st.registrations.any
          fun r2 => r2.event_id == event.id && r2.participant_email == p.email) with
      | true =>
        have hres : event_register event name email phone answers st = (.duplicate, st) := by
          simp [event_register, getOrCreateParticipant, hpub, hf, hany]
        rw [hres]
      | false =>
        simp [event_register, getOrCreateParticipant, hpub, hf, hany] at hdup
    | none =>
      cases hany : (st.registrations.any
          fun r2 => r2.event_id == event.id && r2.participant_email == email) with
      | true =>
        exfalso
        obtain ⟨r2, hr2, hcon⟩ := (List.any_eq_true).1 hany
        obtain ⟨p', hp', hpe⟩ := hwf r2 hr2
        have hre : r2.participant_email = email := by
          simp only [Bool.and_eq_true, beq_iff_eq] at hcon
          exact hcon.2
        have hpt : (fun p => p.email == email) p' = true := by simp [hpe, hre]
        exact absurd hpt ((List.find?_eq_none).1 hf p' hp')
      | false =>
        simp [event_register, getOrCreateParticipant, hpub, hf, hany] at hdup
  · simp [event_register, hpub] at hdup

/-- Witness for C10: re-registering an email that already holds the sole
registration for the event fails as a duplicate and returns the store
untouched. -/
theorem duplicate_leaves_store_unchanged_witness :
    (event_register ⟨0, false, true⟩ "Bob" "a@x" "" []
        ⟨[⟨"Ann", "a@x", ""⟩], [⟨0, 0, "a@x", .approved⟩], [], [], [], 1⟩).1 = .duplicate
    ∧ (event_register ⟨0, false, true⟩ "Bob" "a@x" "" []
        ⟨[⟨"Ann", "a@x", ""⟩], [⟨0, 0, "a@x", .approved⟩], [], [], [], 1⟩).2
      = ⟨[⟨"Ann", "a@x", ""⟩], [⟨0, 0, "a@x", .approved⟩], [], [], [], 1⟩ :=
  ⟨rfl,
    duplicate_leaves_store_unchanged ⟨0, false, true⟩ "Bob" "a@x" "" []
      ⟨[⟨"Ann", "a@x", ""⟩], [⟨0, 0, "a@x", .approved⟩], [], [], [], 1⟩
      (by decide) rfl⟩

end Venu
